import Mathlib

/-!
Verification development for the Order Execution Engine UI client.

The development shallowly embeds the client-side reconciliation logic of the
repository:

* `Api` — the API client deployed with the dashboard (`src/lib/api.ts`, the
  module imported by `components/OrderExecutionDashboard.tsx`):
  `createOrder` (lines 67-93), `fetchOrders` (lines 98-123) and
  `fetchMetrics` (lines 128-175).
* `SApi` — the strict API-client revision bundled with the repository
  (the unnamed source file `part_002`): `createOrder` with idempotency
  token and envelope normalization (lines 50-90).
* `SApi3` — the strict API-client revision with per-field validation errors
  (the unnamed source file `part_003`): `createOrder` (lines 83-147).
* `Dash` — the dashboard's timer tick (`components/OrderExecutionDashboard.tsx`
  lines 75-109): the synthetic order-status transition and the metrics
  random walk.

JSON-like runtime values are modelled by `JValue`.  JavaScript numbers are
modelled as `Option ℚ`, where `none` stands for `NaN` (note that
`typeof NaN === 'number'` in JavaScript, and `NaN` propagates through
`+`, `Math.min` and `Math.max`).  Transport outcomes are modelled as
`Except TransportError JValue`: `Except.error` is a thrown transport error
(non-success HTTP status or network failure inside `apiRequest`), and
`Except.ok v` is the parsed response body.  Each `Math.random()` comparison
performed by a timer tick is modelled as an explicit boolean oracle argument.
-/

/-- A JavaScript number: `some q` is an ordinary (finite) number, `none` is
`NaN`. -/
abbrev JNum := Option ℚ

/-- Untyped JSON-like runtime value, as handled by the API client. -/
inductive JValue where
  | jnull
  | jbool (b : Bool)
  | jnum (n : JNum)
  | jstr (s : String)
  | jarr (elems : List JValue)
  | jobj (fields : List (String × JValue))

/-- Property access `v[k]`: `none` models JavaScript `undefined` (absent
property, or access on a non-object).  Object keys are assumed unique, as for
parsed JSON. -/
def JValue.getProp : JValue → String → Option JValue
  | .jobj fields, k => fields.lookup k
  | _, _ => none

/-- JavaScript truthiness of a value. -/
def JValue.truthy : JValue → Bool
  | .jnull => false
  | .jbool b => b
  | .jnum none => false
  | .jnum (some q) => decide (q ≠ 0)
  | .jstr s => decide (s ≠ "")
  | .jarr _ => true
  | .jobj _ => true

/-- JavaScript `typeof v === 'object'` (true for objects, arrays and
`null`). -/
def JValue.typeofObject : JValue → Bool
  | .jnull => true
  | .jarr _ => true
  | .jobj _ => true
  | _ => false

/-- `typeof x === 'string'` for a possibly-undefined value. -/
def isStringProp : Option JValue → Bool
  | some (.jstr _) => true
  | _ => false

/-- `typeof x === 'number'` for a possibly-undefined value (`NaN` is a
number). -/
def isNumberProp : Option JValue → Bool
  | some (.jnum _) => true
  | _ => false

/-- Whether a possibly-undefined value is nullish (`null` or `undefined`),
as tested by the `??` operator. -/
def isNullish : Option JValue → Bool
  | none => true
  | some .jnull => true
  | _ => false

/-- JavaScript addition on numbers: `NaN` propagates. -/
def jadd : JNum → JNum → JNum
  | some a, some b => some (a + b)
  | _, _ => none

/-- `Math.max` on two numbers: `NaN` propagates. -/
def jmax : JNum → JNum → JNum
  | some a, some b => some (max a b)
  | _, _ => none

/-- `Math.min` on two numbers: `NaN` propagates. -/
def jmin : JNum → JNum → JNum
  | some a, some b => some (min a b)
  | _, _ => none

/-- A transport-level failure thrown by `apiRequest` (non-success HTTP
status, or a network error), carrying its message. -/
abbrev TransportError := String

/-- The creation payload `{baseToken, quoteToken, amount}`. -/
structure OrderData where
  baseToken : String
  quoteToken : String
  amount : JNum

/-- An HTTP request as assembled by the client before it is handed to
`fetch`; the body is the JSON-serialized creation payload. -/
structure Request where
  method : String
  endpoint : String
  headers : List (String × String)
  body : OrderData

/-- The canonical metrics snapshot (`SystemMetrics` in `types.ts`): the four
gauges as JavaScript numbers plus the health status string. -/
structure SystemMetrics where
  workersActive : JNum
  maxWorkers : JNum
  queueDepth : JNum
  throughput : JNum
  healthStatus : String

/-- The all-default metrics snapshot with the given health status, as
returned literally by `fetchMetrics` on its degraded paths. -/
def defaultMetrics (h : String) : SystemMetrics :=
  { workersActive := some 0, maxWorkers := some 0, queueDepth := some 0,
    throughput := some 0, healthStatus := h }

namespace Api

/-- Deployed `createOrder` (`src/lib/api.ts` lines 67-93), applied to the
outcome of its `apiRequest` call.  `const order = response?.order || response`
unwraps only the `order` envelope (by truthiness); the shape check then
requires a truthy object with string `id` and string `status`.  Every failure
path — a thrown transport error included — returns `null` (`none`). -/
def createOrder (r : Except TransportError JValue) : Option JValue :=
  match r with
  | .error _ => none
  | .ok response =>
    let order : JValue :=
      match response.getProp "order" with
      | some v => if v.truthy then v else response
      | none => response
    if order.truthy && order.typeofObject
        && isStringProp (order.getProp "id")
        && isStringProp (order.getProp "status") then
      some order
    else
      none

/-- The request assembled by the deployed `createOrder` (`src/lib/api.ts`
lines 73-76): a POST to `/api/orders` whose only header is the
`Content-Type` added by `apiRequest`; no idempotency token is generated or
attached. -/
def createOrderRequest (d : OrderData) : Request :=
  { method := "POST", endpoint := "/api/orders",
    headers := [("Content-Type", "application/json")], body := d }

/-- The property `k` of the response when it is an array, per
`Array.isArray(response.k)`. -/
def lookupArr (v : JValue) (k : String) : Option (List JValue) :=
  match v.getProp k with
  | some (.jarr l) => some l
  | _ => none

/-- Deployed `fetchOrders` (`src/lib/api.ts` lines 98-123), applied to the
outcome of its `apiRequest` call: a bare array is returned directly; else an
array under `orders`, else an array under `data`; else the empty array.  A
thrown transport error also yields the empty array.  (The source guards the
two wrapped lookups with `response && ...`; a single truthiness test is
equivalent since `truthy` is unchanged between them.) -/
def fetchOrders (r : Except TransportError JValue) : List JValue :=
  match r with
  | .error _ => []
  | .ok response =>
    match response with
    | .jarr l => l
    | _ =>
      if response.truthy then
        match lookupArr response "orders" with
        | some l => l
        | none =>
          match lookupArr response "data" with
          | some l => l
          | none => []
      else []

/-- `typeof response.k === 'number' ? response.k : 0` — the per-field numeric
validation of `fetchMetrics`. -/
def numFieldOr0 (response : JValue) (k : String) : JNum :=
  match response.getProp k with
  | some (.jnum n) => n
  | _ => some 0

/-- `['healthy','degraded','down'].includes(response.healthStatus) ?
response.healthStatus : 'healthy'`. -/
def healthField (response : JValue) : String :=
  match response.getProp "healthStatus" with
  | some (.jstr s) => if s = "healthy" ∨ s = "degraded" ∨ s = "down" then s else "healthy"
  | _ => "healthy"

/-- Deployed `fetchMetrics` (`src/lib/api.ts` lines 128-175), applied to the
outcome of its `apiRequest` call.  A string response (Prometheus text) yields
the healthy default; a truthy object-typed response (objects and arrays) is
validated field by field with safe defaults; anything else yields the healthy
default; a thrown transport error yields the degraded default. -/
def fetchMetrics (r : Except TransportError JValue) : SystemMetrics :=
  match r with
  | .error _ => defaultMetrics "degraded"
  | .ok response =>
    match response with
    | .jstr _ => defaultMetrics "healthy"
    | _ =>
      if response.truthy && response.typeofObject then
        { workersActive := numFieldOr0 response "workersActive",
          maxWorkers := numFieldOr0 response "maxWorkers",
          queueDepth := numFieldOr0 response "queueDepth",
          throughput := numFieldOr0 response "throughput",
          healthStatus := healthField response }
      else defaultMetrics "healthy"

end Api

/-- The canonical `Order` produced by the strict client's normalization
(`part_002` lines 81-89).  `timestamp` is kept as a raw value (the source
passes `order.timestamp ?? order.createdAt` through without a type check and
only defaults it to the current time string); `idempotencyKey` is the raw
property, `none` when absent. -/
structure Order where
  id : String
  baseToken : String
  quoteToken : String
  amount : JNum
  status : String
  timestamp : JValue
  idempotencyKey : Option JValue

/-- Failures raised by the strict client's `createOrder` (`part_002`). -/
inductive SErr where
  | invalidOrderResponse
  | missingRequiredFields
  | transport (e : TransportError)

namespace SApi

/-- Envelope unwrapping of the strict client (`part_002` line 65):
`response?.order ?? response?.data ?? response` — the `order` property when
non-nullish, else the `data` property when non-nullish, else the response
itself. -/
def unwrap (response : JValue) : JValue :=
  if ¬ isNullish (response.getProp "order") then
    (response.getProp "order").getD .jnull
  else if ¬ isNullish (response.getProp "data") then
    (response.getProp "data").getD .jnull
  else response

/-- Normalization performed by the strict client's `createOrder` after the
transport call (`part_002` lines 65-89): unwrap the envelope, reject a
non-object, reject missing or mistyped required fields, then build the
canonical order, defaulting `timestamp` to `now` (the
`new Date().toISOString()` value) when both `timestamp` and `createdAt` are
nullish. -/
def normalizeOrder (response : JValue) (now : String) : Except SErr Order :=
  let order := unwrap response
  if ¬ (order.truthy && order.typeofObject) then
    .error .invalidOrderResponse
  else
    match order.getProp "id", order.getProp "baseToken",
        order.getProp "quoteToken", order.getProp "amount",
        order.getProp "status" with
    | some (.jstr i), some (.jstr b), some (.jstr q), some (.jnum a), some (.jstr s) =>
      .ok { id := i, baseToken := b, quoteToken := q, amount := a, status := s,
            timestamp :=
              if ¬ isNullish (order.getProp "timestamp") then
                (order.getProp "timestamp").getD .jnull
              else if ¬ isNullish (order.getProp "createdAt") then
                (order.getProp "createdAt").getD .jnull
              else .jstr now,
            idempotencyKey := order.getProp "idempotencyKey" }
    | _, _, _, _, _ => .error .missingRequiredFields

/-- The strict client's `createOrder` (`part_002` lines 50-90) applied to
the generated idempotency token and the transport outcome: a thrown
transport error propagates, a success body is normalized. -/
def createOrder (r : Except TransportError JValue) (now : String) :
    Except SErr Order :=
  match r with
  | .error e => .error (.transport e)
  | .ok response => normalizeOrder response now

/-- The request assembled by the strict client's `createOrder` (`part_002`
lines 55-63): a POST to `/api/orders` carrying the freshly generated
idempotency token (`generateUUID()`, modelled as the argument `token`) in
the `Idempotency-Key` header, alongside the `Content-Type` header added by
`apiRequest`. -/
def createOrderRequest (token : String) (d : OrderData) : Request :=
  { method := "POST", endpoint := "/api/orders",
    headers := [("Content-Type", "application/json"), ("Idempotency-Key", token)],
    body := d }

end SApi

/-- Failures raised by the per-field strict client's `createOrder`
(`part_003` lines 83-147), one per thrown message. -/
inductive VErr where
  | expectedObject
  | orderNotObject
  | badId
  | badBaseToken
  | badQuoteToken
  | badAmount
  | badStatus
  | badTimestamp
  | badIdempotencyKey

namespace SApi3

/-- `typeof x === 'string' && x` — a non-empty string property, as required
by the per-field checks of `part_003`. -/
def nonEmptyStringProp (v : Option JValue) : Bool :=
  match v with
  | some (.jstr s) => decide (s ≠ "")
  | _ => false

/-- Truthiness of a property access, as used by `if (response.order)`. -/
def propTruthy (v : JValue) (k : String) : Bool :=
  match v.getProp k with
  | some w => w.truthy
  | none => false

/-- Normalization of the per-field strict client (`part_003` lines 99-146):
unwrap by truthiness (`order` first, then `data`, then the response itself),
then check every required field in order, throwing an error naming the first
offending field. -/
def normalizeOrder (response : JValue) : Except VErr JValue :=
  if ¬ (response.truthy && response.typeofObject) then
    .error .expectedObject
  else
    let order : JValue :=
      if propTruthy response "order" then (response.getProp "order").getD .jnull
      else if propTruthy response "data" then (response.getProp "data").getD .jnull
      else response
    if ¬ (order.truthy && order.typeofObject) then .error .orderNotObject
    else if ¬ nonEmptyStringProp (order.getProp "id") then .error .badId
    else if ¬ nonEmptyStringProp (order.getProp "baseToken") then .error .badBaseToken
    else if ¬ nonEmptyStringProp (order.getProp "quoteToken") then .error .badQuoteToken
    else if ¬ isNumberProp (order.getProp "amount") then .error .badAmount
    else if ¬ nonEmptyStringProp (order.getProp "status") then .error .badStatus
    else if ¬ nonEmptyStringProp (order.getProp "timestamp") then .error .badTimestamp
    else if ¬ nonEmptyStringProp (order.getProp "idempotencyKey") then .error .badIdempotencyKey
    else .ok order

end SApi3

/-- An order as held in the dashboard's state (`Order` in `types.ts`),
operated on by the synthetic transition tick. -/
structure DOrder where
  id : String
  baseToken : String
  quoteToken : String
  amount : JNum
  status : String
  timestamp : String
  idempotencyKey : String

/-- The dashboard's metrics state as mutated by the metrics tick; fields are
raw values because the tick defends against non-numeric fields with
`typeof` guards. -/
structure MSnap where
  workersActive : JValue
  maxWorkers : JValue
  queueDepth : JValue
  throughput : JValue
  healthStatus : JValue

namespace Dash

/-- One synthetic transition tick applied to one order
(`OrderExecutionDashboard.tsx` lines 83-91, the body of `prev.map`).
`r1` models `Math.random() > 0.7`, `r2` models `Math.random() > 0.8` and
`r3` models `Math.random() > 0.1` for this order. -/
def tickOrder (o : DOrder) (r1 r2 r3 : Bool) : DOrder :=
  if o.status = "QUEUED" ∧ r1 then { o with status := "EXECUTING" }
  else if o.status = "EXECUTING" ∧ r2 then
    { o with status := if r3 then "SUCCESS" else "FAILED" }
  else o

/-- `typeof v === 'number' ? v : d` — the tick's defensive field guard. -/
def numOrD (v : JValue) (d : JNum) : JNum :=
  match v with
  | .jnum n => n
  | _ => d

/-- One metrics tick (`OrderExecutionDashboard.tsx` lines 94-105).
`c1` models `Math.random() > 0.5` for the worker walk and `c2` the
independent `Math.random() > 0.5` for the queue walk.  The guarded fields
default to `32`, `0` and `0`; `workersActive` becomes
`Math.min(safeMaxWorkers, Math.max(4, safeWorkersActive ± 1))` and
`queueDepth` becomes `Math.max(0, safeQueueDepth ± 2)`; the spread keeps
every other field unchanged. -/
def metricsTick (prev : MSnap) (c1 c2 : Bool) : MSnap :=
  let safeMaxWorkers := numOrD prev.maxWorkers (some 32)
  let safeWorkersActive := numOrD prev.workersActive (some 0)
  let safeQueueDepth := numOrD prev.queueDepth (some 0)
  { prev with
    workersActive :=
      .jnum (jmin safeMaxWorkers
        (jmax (some 4) (jadd safeWorkersActive (some (if c1 then 1 else -1))))),
    queueDepth :=
      .jnum (jmax (some 0) (jadd safeQueueDepth (some (if c2 then 2 else -2)))) }

end Dash

/-- Whether a response value is list-producing for `fetchOrders`: a bare
array, or a value whose `orders` or `data` property is an array. -/
def listProducing (v : JValue) : Bool :=
  match v with
  | .jarr _ => true
  | _ => (Api.lookupArr v "orders").isSome || (Api.lookupArr v "data").isSome

/-- A sample backend order entity (the underlying entity of Scenario A),
carrying exactly the required fields. -/
def sampleEntity : JValue :=
  .jobj [("id", .jstr "o1"), ("baseToken", .jstr "SOL"),
         ("quoteToken", .jstr "USDC"), ("amount", .jnum (some (3/2))),
         ("status", .jstr "QUEUED")]

/-- A transport-successful creation response whose entity is missing the
`status` field (Scenario D) while every other required field is present and
well-typed. -/
def respMissingStatus : JValue :=
  .jobj [("id", .jstr "o1"), ("baseToken", .jstr "SOL"),
         ("quoteToken", .jstr "USDC"), ("amount", .jnum (some (3/2))),
         ("timestamp", .jstr "2026-01-01T00:00:00.000Z"),
         ("idempotencyKey", .jstr "idem-1")]

/-- A pre-tick metrics snapshot with an out-of-range (negative) numeric
`maxWorkers`. -/
def negMaxSnapshot : MSnap :=
  { workersActive := .jnum (some 8), maxWorkers := .jnum (some (-5)),
    queueDepth := .jnum (some 42), throughput := .jnum (some 124),
    healthStatus := .jstr "healthy" }

/-- The dashboard's initial metrics state
(`OrderExecutionDashboard.tsx` lines 58-64). -/
def initMetricsSnapshot : MSnap :=
  { workersActive := .jnum (some 8), maxWorkers := .jnum (some 32),
    queueDepth := .jnum (some 42), throughput := .jnum (some 124),
    healthStatus := .jstr "healthy" }

/-- A terminal order from the dashboard's initial state
(`INITIAL_ORDERS[0]`). -/
def terminalOrder : DOrder :=
  { id := "ord_7f2k9x1m5", baseToken := "SOL", quoteToken := "USDC",
    amount := some (291/2), status := "SUCCESS",
    timestamp := "2026-10-12T00:00:00.000Z", idempotencyKey := "idem-8123-af92" }

/-- A list element that lacks every required `Order` field. -/
def unvalidatedElement : JValue := .jobj [("foo", .jnum (some 1))]

/-! ## Helper lemmas about `Api.fetchOrders` -/

lemma fetchOrders_error_eq (e : TransportError) : Api.fetchOrders (.error e) = [] := rfl

lemma fetchOrders_arr_eq (l : List JValue) : Api.fetchOrders (.ok (.jarr l)) = l := rfl

lemma fetchOrders_orders_eq (fields : List (String × JValue)) (l : List JValue)
    (h : Api.lookupArr (.jobj fields) "orders" = some l) :
    Api.fetchOrders (.ok (.jobj fields)) = l := by
  show (match Api.lookupArr (.jobj fields) "orders" with
        | some l => l
        | none =>
          match Api.lookupArr (.jobj fields) "data" with
          | some l => l
          | none => []) = l
  rw [h]

lemma fetchOrders_data_eq (fields : List (String × JValue)) (l : List JValue)
    (h1 : Api.lookupArr (.jobj fields) "orders" = none)
    (h2 : Api.lookupArr (.jobj fields) "data" = some l) :
    Api.fetchOrders (.ok (.jobj fields)) = l := by
  show (match Api.lookupArr (.jobj fields) "orders" with
        | some l => l
        | none =>
          match Api.lookupArr (.jobj fields) "data" with
          | some l => l
          | none => []) = l
  rw [h1, h2]

lemma fetchOrders_nonlist_eq (v : JValue) (h : listProducing v = false) :
    Api.fetchOrders (.ok v) = [] := by
  cases v with
  | jarr l => simp [listProducing] at h
  | jobj fields =>
    show (match Api.lookupArr (.jobj fields) "orders" with
          | some l => l
          | none =>
            match Api.lookupArr (.jobj fields) "data" with
            | some l => l
            | none => []) = []
    cases ho : Api.lookupArr (.jobj fields) "orders" with
    | some l => simp [listProducing, ho] at h
    | none =>
      cases hd : Api.lookupArr (.jobj fields) "data" with
      | some l => simp [listProducing, ho, hd] at h
      | none => rfl
  | jnull => rfl
  | jbool b => cases b <;> rfl
  | jnum n => simp [Api.fetchOrders, Api.lookupArr, JValue.getProp]
  | jstr s => simp [Api.fetchOrders, Api.lookupArr, JValue.getProp]

/-! ## Claim theorems -/

/-- Claim C1.  The deployed `createOrder` (`src/lib/api.ts`) does not raise a
typed error on failure: a transport-successful response whose entity is
missing the `status` field makes it return `null` (`none`), and a thrown
transport error also yields `null` — the failure is swallowed, not surfaced.
The strict client revision bundled with the repository (`part_003`) instead
rejects the same response with a validation error citing `status`, which is
the behavior the claim describes. -/
theorem createOrder_swallows_failure_returns_null :
    Api.createOrder (.ok respMissingStatus) = none ∧
    SApi3.normalizeOrder respMissingStatus = .error .badStatus ∧
    (∀ e : TransportError, Api.createOrder (.error e) = none) :=
  ⟨rfl, rfl, fun _ => rfl⟩

/-- Claim C2.  The strict client's normalization (`part_002`) maps the three
envelope shapes of the sample entity — bare, wrapped in `order`, wrapped in
`data` — to the identical canonical `Order` (its actual unwrap precedence is
`order`, then `data`, then the direct value).  The deployed `createOrder`
(`src/lib/api.ts`), however, unwraps only the `order` envelope: it accepts
the bare entity but returns `null` for the `data`-wrapped entity, so on the
deployed code the three shapes do not yield identical results. -/
theorem createOrder_envelope_normalization_divergence :
    SApi.normalizeOrder (.jobj [("order", sampleEntity)]) "T0" =
      SApi.normalizeOrder sampleEntity "T0" ∧
    SApi.normalizeOrder (.jobj [("data", sampleEntity)]) "T0" =
      SApi.normalizeOrder sampleEntity "T0" ∧
    SApi.normalizeOrder sampleEntity "T0" =
      .ok { id := "o1", baseToken := "SOL", quoteToken := "USDC",
            amount := some (3/2), status := "QUEUED",
            timestamp := .jstr "T0", idempotencyKey := none } ∧
    Api.createOrder (.ok sampleEntity) = some sampleEntity ∧
    Api.createOrder (.ok (.jobj [("data", sampleEntity)])) = none :=
  ⟨rfl, rfl, rfl, rfl, rfl⟩

/-- Claim C3.  The strict client's `createOrder` (`part_002`) issues a POST
to `/api/orders` carrying the generated idempotency token in the
`Idempotency-Key` header; the deployed `createOrder` (`src/lib/api.ts`)
issues the same POST with no `Idempotency-Key` header at all and generates
no token. -/
theorem createOrder_idempotency_header_divergence :
    (∀ (t : String) (d : OrderData),
      (SApi.createOrderRequest t d).headers.lookup "Idempotency-Key" = some t ∧
      (SApi.createOrderRequest t d).method = "POST" ∧
      (SApi.createOrderRequest t d).endpoint = "/api/orders") ∧
    (∀ d : OrderData,
      (Api.createOrderRequest d).headers.lookup "Idempotency-Key" = none ∧
      (Api.createOrderRequest d).method = "POST" ∧
      (Api.createOrderRequest d).endpoint = "/api/orders") :=
  ⟨fun _ _ => ⟨rfl, rfl, rfl⟩, fun _ => ⟨rfl, rfl, rfl⟩⟩

/-- Claim C4, counterexample.  A pre-tick snapshot with the out-of-range
numeric `maxWorkers = -5` produces a post-tick snapshot with
`workersActive = -5`, violating the claimed invariant
`0 ≤ workersActive`. -/
theorem metricsTick_negative_maxWorkers_counterexample :
    (Dash.metricsTick negMaxSnapshot true true).workersActive = .jnum (some (-5)) ∧
    (Dash.metricsTick negMaxSnapshot true true).maxWorkers = .jnum (some (-5)) ∧
    ¬ ((0 : ℚ) ≤ -5) := by
  refine ⟨?_, rfl, by norm_num⟩
  simp only [Dash.metricsTick, Dash.numOrD, jadd, jmax, jmin, negMaxSnapshot]
  norm_num [min_def, max_def]

/-- Claim C4, amended.  One metrics tick keeps `queueDepth ≥ 0` and
`0 ≤ workersActive ≤ m` for any pre-tick snapshot — including out-of-range
numeric values — provided the effective (guard-defaulted) `maxWorkers`,
`workersActive` and `queueDepth` are actual numbers (not `NaN`) and the
effective `maxWorkers` value `m` is non-negative. -/
theorem metricsTick_bounds (prev : MSnap) (c1 c2 : Bool) (m a q : ℚ)
    (hm : Dash.numOrD prev.maxWorkers (some 32) = some m) (hm0 : 0 ≤ m)
    (ha : Dash.numOrD prev.workersActive (some 0) = some a)
    (hq : Dash.numOrD prev.queueDepth (some 0) = some q) :
    ∃ w qd : ℚ,
      (Dash.metricsTick prev c1 c2).workersActive = .jnum (some w) ∧
      0 ≤ w ∧ w ≤ m ∧
      (Dash.metricsTick prev c1 c2).queueDepth = .jnum (some qd) ∧
      0 ≤ qd := by
  refine ⟨min m (max 4 (a + (if c1 then 1 else -1))),
          max 0 (q + (if c2 then 2 else -2)), ?_, ?_, ?_, ?_, ?_⟩
  · simp [Dash.metricsTick, hm, ha, jadd, jmax, jmin]
  · exact le_min hm0 (le_trans (by norm_num) (le_max_left _ _))
  · exact min_le_left _ _
  · simp [Dash.metricsTick, hq, jadd, jmax]
  · exact le_max_left _ _

/-- Witness for the amended Claim C4, at the dashboard's initial metrics
state. -/
theorem metricsTick_bounds_witness :
    ∃ w qd : ℚ,
      (Dash.metricsTick initMetricsSnapshot true true).workersActive = .jnum (some w) ∧
      0 ≤ w ∧ w ≤ 32 ∧
      (Dash.metricsTick initMetricsSnapshot true true).queueDepth = .jnum (some qd) ∧
      0 ≤ qd :=
  metricsTick_bounds initMetricsSnapshot true true 32 8 42 rfl (by norm_num) rfl rfl

/-- Claim C5.  A synthetic transition tick moves an order's status only
along the forward edges QUEUED to EXECUTING and EXECUTING to SUCCESS or
FAILED, and leaves an order whose status is SUCCESS or FAILED entirely
unchanged. -/
theorem tickOrder_forward_transitions (o : DOrder) (r1 r2 r3 : Bool) :
    ((Dash.tickOrder o r1 r2 r3).status = o.status ∨
     (o.status = "QUEUED" ∧ (Dash.tickOrder o r1 r2 r3).status = "EXECUTING") ∨
     (o.status = "EXECUTING" ∧
       ((Dash.tickOrder o r1 r2 r3).status = "SUCCESS" ∨
        (Dash.tickOrder o r1 r2 r3).status = "FAILED"))) ∧
    ((o.status = "SUCCESS" ∨ o.status = "FAILED") → Dash.tickOrder o r1 r2 r3 = o) := by
  constructor
  · by_cases h1 : o.status = "QUEUED" ∧ r1 = true
    · exact Or.inr (Or.inl ⟨h1.1, by simp [Dash.tickOrder, h1]⟩)
    · by_cases h2 : o.status = "EXECUTING" ∧ r2 = true
      · refine Or.inr (Or.inr ⟨h2.1, ?_⟩)
        cases r3
        · exact Or.inr (by simp [Dash.tickOrder, h1, h2])
        · exact Or.inl (by simp [Dash.tickOrder, h1, h2])
      · exact Or.inl (by simp [Dash.tickOrder, h1, h2])
  · intro hterm
    have h1 : ¬ (o.status = "QUEUED" ∧ r1 = true) := by
      rcases hterm with h | h <;> simp [h]
    have h2 : ¬ (o.status = "EXECUTING" ∧ r2 = true) := by
      rcases hterm with h | h <;> simp [h]
    simp [Dash.tickOrder, h1, h2]

/-- Witness for Claim C5: a tick leaves a terminal (SUCCESS) order
unchanged even when every random draw passes its threshold. -/
theorem tickOrder_forward_transitions_witness :
    Dash.tickOrder terminalOrder true true true = terminalOrder :=
  (tickOrder_forward_transitions terminalOrder true true true).2 (Or.inl rfl)

/-- Claim C6.  `fetchOrders` never propagates a failure: a thrown transport
error and every non-list-producing response yield the empty array, while a
bare array, an array wrapped under `orders`, and (when `orders` is not an
array) an array wrapped under `data` are returned as-is. -/
theorem fetchOrders_degrades_and_unwraps :
    (∀ e : TransportError, Api.fetchOrders (.error e) = []) ∧
    (∀ v : JValue, listProducing v = false → Api.fetchOrders (.ok v) = []) ∧
    (∀ l : List JValue, Api.fetchOrders (.ok (.jarr l)) = l) ∧
    (∀ (fields : List (String × JValue)) (l : List JValue),
      Api.lookupArr (.jobj fields) "orders" = some l →
      Api.fetchOrders (.ok (.jobj fields)) = l) ∧
    (∀ (fields : List (String × JValue)) (l : List JValue),
      Api.lookupArr (.jobj fields) "orders" = none →
      Api.lookupArr (.jobj fields) "data" = some l →
      Api.fetchOrders (.ok (.jobj fields)) = l) :=
  ⟨fetchOrders_error_eq, fetchOrders_nonlist_eq, fetchOrders_arr_eq,
   fetchOrders_orders_eq, fetchOrders_data_eq⟩

/-- Witness for Claim C6: a numeric (non-list-producing) response and a
`data`-wrapped list, at concrete inputs. -/
theorem fetchOrders_degrades_and_unwraps_witness :
    Api.fetchOrders (.ok (.jnum (some 7))) = [] ∧
    Api.fetchOrders (.ok (.jobj [("data", .jarr [sampleEntity])])) = [sampleEntity] :=
  ⟨fetchOrders_degrades_and_unwraps.2.1 _ rfl,
   fetchOrders_degrades_and_unwraps.2.2.2.2 _ _ rfl rfl⟩

/-- Claim C7.  `fetchMetrics` distinguishes its two failure modes: a
transport-successful but unusable payload — a text (Prometheus) payload, a
bare array, `null`, a boolean, a number, or an object with none of the
expected fields — yields the conservative default snapshot with
`healthStatus` healthy and all gauges zero, while a thrown transport error
yields the default snapshot with `healthStatus` degraded. -/
theorem fetchMetrics_failure_modes :
    (∀ e : TransportError, Api.fetchMetrics (.error e) = defaultMetrics "degraded") ∧
    (∀ s : String, Api.fetchMetrics (.ok (.jstr s)) = defaultMetrics "healthy") ∧
    (∀ l : List JValue, Api.fetchMetrics (.ok (.jarr l)) = defaultMetrics "healthy") ∧
    Api.fetchMetrics (.ok .jnull) = defaultMetrics "healthy" ∧
    (∀ b : Bool, Api.fetchMetrics (.ok (.jbool b)) = defaultMetrics "healthy") ∧
    (∀ n : JNum, Api.fetchMetrics (.ok (.jnum n)) = defaultMetrics "healthy") ∧
    Api.fetchMetrics (.ok (.jobj [])) = defaultMetrics "healthy" := by
  refine ⟨fun _ => rfl, fun _ => rfl, fun _ => rfl, rfl, fun b => ?_, fun n => ?_, rfl⟩
  · cases b <;> rfl
  · simp [Api.fetchMetrics, JValue.typeofObject]

/-- Claim C9.  `fetchOrders` performs no per-element validation: a bare
array, an `orders`-wrapped array and a `data`-wrapped array are returned
with every element passed through verbatim, whatever shape the elements
have. -/
theorem fetchOrders_elements_verbatim :
    (∀ l : List JValue, Api.fetchOrders (.ok (.jarr l)) = l) ∧
    (∀ (fields : List (String × JValue)) (l : List JValue),
      Api.lookupArr (.jobj fields) "orders" = some l →
      Api.fetchOrders (.ok (.jobj fields)) = l) ∧
    (∀ (fields : List (String × JValue)) (l : List JValue),
      Api.lookupArr (.jobj fields) "orders" = none →
      Api.lookupArr (.jobj fields) "data" = some l →
      Api.fetchOrders (.ok (.jobj fields)) = l) :=
  ⟨fetchOrders_arr_eq, fetchOrders_orders_eq, fetchOrders_data_eq⟩

/-- Witness for Claim C9: an element lacking every required `Order` field
(no `id`, no `status`) is returned unmodified, bare and wrapped. -/
theorem fetchOrders_elements_verbatim_witness :
    Api.fetchOrders (.ok (.jarr [unvalidatedElement])) = [unvalidatedElement] ∧
    Api.fetchOrders (.ok (.jobj [("orders", .jarr [unvalidatedElement])])) =
      [unvalidatedElement] :=
  ⟨fetchOrders_elements_verbatim.1 _, fetchOrders_elements_verbatim.2.1 _ _ rfl⟩

/-- Claim C10.  `fetchMetrics` validates only the type of each numeric
field: whenever the response object carries a number — any rational,
negative included, or `NaN` — under `workersActive`, `maxWorkers`,
`queueDepth` or `throughput`, the returned snapshot carries that exact
number unchecked for range. -/
theorem fetchMetrics_numeric_passthrough (fields : List (String × JValue)) (x : JNum) :
    (fields.lookup "workersActive" = some (.jnum x) →
      (Api.fetchMetrics (.ok (.jobj fields))).workersActive = x) ∧
    (fields.lookup "maxWorkers" = some (.jnum x) →
      (Api.fetchMetrics (.ok (.jobj fields))).maxWorkers = x) ∧
    (fields.lookup "queueDepth" = some (.jnum x) →
      (Api.fetchMetrics (.ok (.jobj fields))).queueDepth = x) ∧
    (fields.lookup "throughput" = some (.jnum x) →
      (Api.fetchMetrics (.ok (.jobj fields))).throughput = x) := by
  refine ⟨fun h => ?_, fun h => ?_, fun h => ?_, fun h => ?_⟩ <;>
    simp [Api.fetchMetrics, Api.numFieldOr0, JValue.getProp, JValue.truthy,
      JValue.typeofObject, h]

/-- Witness for Claim C10: a negative `workersActive` (-7) and a `NaN`
`maxWorkers` are both passed through. -/
theorem fetchMetrics_numeric_passthrough_witness :
    (Api.fetchMetrics (.ok (.jobj [("workersActive", .jnum (some (-7))),
        ("maxWorkers", .jnum none)]))).workersActive = some (-7) ∧
    (Api.fetchMetrics (.ok (.jobj [("workersActive", .jnum (some (-7))),
        ("maxWorkers", .jnum none)]))).maxWorkers = none :=
  ⟨(fetchMetrics_numeric_passthrough _ _).1 rfl,
   (fetchMetrics_numeric_passthrough _ _).2.1 rfl⟩

/-- Claim C8.  A synthetic transition tick changes at most the `status`
field: `id`, `baseToken`, `quoteToken`, `amount`, `timestamp` and
`idempotencyKey` are all preserved — in particular the timestamp is not
updated even when the status advances. -/
theorem tickOrder_frame (o : DOrder) (r1 r2 r3 : Bool) :
    (Dash.tickOrder o r1 r2 r3).id = o.id ∧
    (Dash.tickOrder o r1 r2 r3).baseToken = o.baseToken ∧
    (Dash.tickOrder o r1 r2 r3).quoteToken = o.quoteToken ∧
    (Dash.tickOrder o r1 r2 r3).amount = o.amount ∧
    (Dash.tickOrder o r1 r2 r3).timestamp = o.timestamp ∧
    (Dash.tickOrder o r1 r2 r3).idempotencyKey = o.idempotencyKey := by
  unfold Dash.tickOrder
  split_ifs <;> exact ⟨rfl, rfl, rfl, rfl, rfl, rfl⟩
